import Mathlib

/-!
Verification of the shell-design terminal emulator (Rust) against its
natural-language specification.  The Rust sources are shallowly embedded:
pure functions become Lean functions, the event loop becomes an explicit
step function over a loop-state record together with an effect trace, and
fallible startup code returns values of an Except type.  Machine integers
are modelled as Nat with explicit reductions modulo 256 where the source
casts to u8.
-/

namespace ShellDesign

/-! ## Input model (src/terminal/input.rs)

Crossterm key codes used by the source.  The catch-all arm of
InputHandler::process_key_input covers the remaining crossterm key codes,
which are listed here explicitly so that the catch-all can be reasoned
about.  Char carries a Lean Char; the Rust cast from char to u8 is
modelled as reduction of the scalar value modulo 256. -/
inductive KeyCode where
  | Char (c : Char)
  | Enter
  | Tab
  | Backspace
  | Esc
  | Up
  | Down
  | Right
  | Left
  | Home
  | End
  | PageUp
  | PageDown
  | Delete
  | Insert
  | F (n : Nat)
  | BackTab
  | Null
  | CapsLock
  | ScrollLock
  | NumLock
  | PrintScreen
  | Pause
  | Menu
  | KeypadBegin
  deriving DecidableEq, Repr

/-- Crossterm KeyModifiers, restricted to the flags the source inspects.
Rust's modifiers.contains(CONTROL) is ctrl = true; equality with
KeyModifiers::CONTROL is ctrl = true with the other flags clear. -/
structure KeyModifiers where
  ctrl : Bool
  shift : Bool
  alt : Bool
  deriving DecidableEq, Repr

structure KeyEvent where
  code : KeyCode
  modifiers : KeyModifiers
  deriving DecidableEq, Repr

/-- Crossterm events surfaced by InputHandler::poll_event. -/
inductive InputEvent where
  | Key (key : KeyEvent)
  | Resize (width : Nat) (height : Nat)
  | None
  deriving DecidableEq, Repr

/-- InputHandler::process_key_input (src/terminal/input.rs, lines 64-119),
translated clause by clause.  Char comparisons in Rust compare Unicode
scalar values, written here via Char.toNat; the cast c as u8 is
c.toNat % 256. -/
def process_key_input (key : KeyEvent) : List Nat :=
  match key.code with
  | KeyCode.Char c =>
      if key.modifiers.ctrl then
        if 97 ≤ c.toNat ∧ c.toNat ≤ 122 then
          [c.toNat % 256 - 97 + 1]
        else if 65 ≤ c.toNat ∧ c.toNat ≤ 90 then
          [c.toNat % 256 - 65 + 1]
        else
          [c.toNat % 256]
      else
        [c.toNat % 256]
  | KeyCode.Enter => [0x0D]
  | KeyCode.Tab => [0x09]
  | KeyCode.Backspace => [0x7F]
  | KeyCode.Esc => [0x1B]
  | KeyCode.Up => [0x1B, 0x5B, 0x41]
  | KeyCode.Down => [0x1B, 0x5B, 0x42]
  | KeyCode.Right => [0x1B, 0x5B, 0x43]
  | KeyCode.Left => [0x1B, 0x5B, 0x44]
  | KeyCode.Home => [0x1B, 0x5B, 0x48]
  | KeyCode.End => [0x1B, 0x5B, 0x46]
  | KeyCode.PageUp => [0x1B, 0x5B, 0x35, 0x7E]
  | KeyCode.PageDown => [0x1B, 0x5B, 0x36, 0x7E]
  | KeyCode.Delete => [0x1B, 0x5B, 0x33, 0x7E]
  | KeyCode.Insert => [0x1B, 0x5B, 0x32, 0x7E]
  | KeyCode.F n =>
      match n with
      | 1 => [0x1B, 0x4F, 0x50]
      | 2 => [0x1B, 0x4F, 0x51]
      | 3 => [0x1B, 0x4F, 0x52]
      | 4 => [0x1B, 0x4F, 0x53]
      | 5 => [0x1B, 0x5B, 0x31, 0x35, 0x7E]
      | 6 => [0x1B, 0x5B, 0x31, 0x37, 0x7E]
      | 7 => [0x1B, 0x5B, 0x31, 0x38, 0x7E]
      | 8 => [0x1B, 0x5B, 0x31, 0x39, 0x7E]
      | 9 => [0x1B, 0x5B, 0x32, 0x30, 0x7E]
      | 10 => [0x1B, 0x5B, 0x32, 0x31, 0x7E]
      | 11 => [0x1B, 0x5B, 0x32, 0x33, 0x7E]
      | 12 => [0x1B, 0x5B, 0x32, 0x34, 0x7E]
      | _ => []
  | _ => []

/-! ## Screen model and renderer state (src/terminal/renderer.rs)

The vt100 Parser is an external library; the renderer only creates it
with given dimensions (Parser::new(rows, cols, 0)), feeds it bytes
(Parser::process) and reads its screen.  It is abstracted as its grid
dimensions plus the byte history processed since creation: a freshly
created parser has an empty history (blank grid), and the grid contents
are a function of the dimensions and that history. -/
structure Vt100Parser where
  rows : Nat
  cols : Nat
  processed : List Nat
  deriving DecidableEq, Repr

def Vt100Parser.mk_new (rows cols : Nat) : Vt100Parser :=
  ⟨rows, cols, []⟩

def Vt100Parser.process (p : Vt100Parser) (data : List Nat) : Vt100Parser :=
  { p with processed := p.processed ++ data }

/-- TerminalRenderer state (src/terminal/renderer.rs, lines 13-20).
u16 dimensions are modelled as Nat; saturating_sub is Nat subtraction. -/
structure TerminalRenderer where
  vt : Vt100Parser
  width : Nat
  height : Nat
  title : String
  show_status_bar : Bool
  raw_mode : Bool
  deriving DecidableEq, Repr

/-- TerminalRenderer::new (lines 24-34): reserves two rows for title and
status bars. -/
def TerminalRenderer.new (width height : Nat) : TerminalRenderer :=
  { vt := Vt100Parser.mk_new (height - 2) width
    width := width
    height := height
    title := "Shell Terminal"
    show_status_bar := true
    raw_mode := false }

/-- TerminalRenderer::set_title (lines 37-39). -/
def TerminalRenderer.set_title (r : TerminalRenderer) (t : String) :
    TerminalRenderer :=
  { r with title := t }

/-- TerminalRenderer::toggle_status_bar (lines 42-48): flips the flag and
recreates the vt100 state at the new content height. -/
def TerminalRenderer.toggle_status_bar (r : TerminalRenderer) :
    TerminalRenderer :=
  let ssb := !r.show_status_bar
  let reserved_rows := if ssb then 2 else 1
  { r with show_status_bar := ssb
           vt := Vt100Parser.mk_new (r.height - reserved_rows) r.width }

/-- TerminalRenderer::toggle_raw_mode (lines 51-53): flips the flag only. -/
def TerminalRenderer.toggle_raw_mode (r : TerminalRenderer) :
    TerminalRenderer :=
  { r with raw_mode := !r.raw_mode }

/-- TerminalRenderer::process_output (lines 56-72); the debug eprintln in
raw mode does not change renderer state. -/
def TerminalRenderer.process_output (r : TerminalRenderer)
    (data : List Nat) : TerminalRenderer :=
  { r with vt := r.vt.process data }

/-- TerminalRenderer::resize (lines 75-82). -/
def TerminalRenderer.resize (r : TerminalRenderer) (width height : Nat) :
    TerminalRenderer :=
  let reserved_rows := if r.show_status_bar then 2 else 1
  { r with width := width
           height := height
           vt := Vt100Parser.mk_new (height - reserved_rows) width }

/-- Rows reserved for chrome given the current flags: the title bar plus,
when shown, the status bar (render, lines 182-186). -/
def TerminalRenderer.chrome_rows (r : TerminalRenderer) : Nat :=
  if r.show_status_bar then 2 else 1

/-- The grid-dimension invariant of the spec: the vt100 grid always spans
the terminal size minus the reserved chrome rows. -/
def TerminalRenderer.grid_inv (r : TerminalRenderer) : Prop :=
  r.vt.rows = r.height - r.chrome_rows ∧ r.vt.cols = r.width

/-- The renderer operations reachable from the event loop and the reader
thread. -/
inductive ROp where
  | resize (width height : Nat)
  | toggleStatusBar
  | toggleRawMode
  | processOutput (data : List Nat)
  | setTitle (t : String)
  deriving DecidableEq, Repr

def TerminalRenderer.apply_op (r : TerminalRenderer) : ROp → TerminalRenderer
  | ROp.resize w h => r.resize w h
  | ROp.toggleStatusBar => r.toggle_status_bar
  | ROp.toggleRawMode => r.toggle_raw_mode
  | ROp.processOutput d => r.process_output d
  | ROp.setTitle t => r.set_title t

def TerminalRenderer.apply_ops (r : TerminalRenderer) (ops : List ROp) :
    TerminalRenderer :=
  ops.foldl TerminalRenderer.apply_op r

/-! ## Render instruction stream (src/terminal/renderer.rs, render)

The content-row loop of TerminalRenderer::render is modelled as a pure
function from the vt100 screen to the list of crossterm instructions it
executes, threading the current_fg and current_bg trackers exactly as
the source does. -/

/-- vt100::Color with u8 components as Nat. -/
inductive Vt100Color where
  | default
  | idx (n : Nat)
  | rgb (r g b : Nat)
  deriving DecidableEq, Repr

/-- crossterm::style::Color as used by the renderer. -/
inductive CtColor where
  | reset
  | black
  | darkRed
  | darkGreen
  | darkYellow
  | darkBlue
  | darkMagenta
  | darkCyan
  | grey
  | darkGrey
  | red
  | green
  | yellow
  | blue
  | magenta
  | cyan
  | white
  | rgb (r g b : Nat)
  deriving DecidableEq, Repr

/-- map_vt100_color (src/terminal/renderer.rs, lines 249-283), clause by
clause.  In the catch-all index arm the source value n is a u8 at least
16, so the u8 arithmetic never wraps and is modelled directly on Nat. -/
def map_vt100_color : Vt100Color → CtColor
  | Vt100Color.default => CtColor.reset
  | Vt100Color.idx 0 => CtColor.black
  | Vt100Color.idx 1 => CtColor.darkRed
  | Vt100Color.idx 2 => CtColor.darkGreen
  | Vt100Color.idx 3 => CtColor.darkYellow
  | Vt100Color.idx 4 => CtColor.darkBlue
  | Vt100Color.idx 5 => CtColor.darkMagenta
  | Vt100Color.idx 6 => CtColor.darkCyan
  | Vt100Color.idx 7 => CtColor.grey
  | Vt100Color.idx 8 => CtColor.darkGrey
  | Vt100Color.idx 9 => CtColor.red
  | Vt100Color.idx 10 => CtColor.green
  | Vt100Color.idx 11 => CtColor.yellow
  | Vt100Color.idx 12 => CtColor.blue
  | Vt100Color.idx 13 => CtColor.magenta
  | Vt100Color.idx 14 => CtColor.cyan
  | Vt100Color.idx 15 => CtColor.white
  | Vt100Color.idx n =>
      if n < 232 then
        CtColor.rgb ((n - 16) / 36 * 42 + 36) ((n - 16) % 36 / 6 * 42 + 36)
          ((n - 16) % 6 * 42 + 36)
      else
        CtColor.rgb ((n - 232) * 10 + 8) ((n - 232) * 10 + 8)
          ((n - 232) * 10 + 8)
  | Vt100Color.rgb r g b => CtColor.rgb r g b

/-- A styled cell as read back from the vt100 screen: its colors and its
textual contents. -/
structure ScreenCell where
  fg : Vt100Color
  bg : Vt100Color
  contents : String
  deriving DecidableEq, Repr

/-- The vt100 screen as the renderer reads it: a size plus an optional
cell per coordinate (screen.size() and screen.cell(row, col)). -/
structure VtScreen where
  rows : Nat
  cols : Nat
  cell : Nat → Nat → Option ScreenCell

/-- The crossterm instructions executed by the content-row loop. -/
inductive Instr where
  | moveTo (x y : Nat)
  | setFg (c : CtColor)
  | setBg (c : CtColor)
  | printStr (s : String)
  deriving DecidableEq, Repr

/-- The (current_fg, current_bg) trackers threaded through render. -/
abbrev ColorState := Option CtColor × Option CtColor

/-- A fold that threads color state and concatenates emitted
instructions, in source order. -/
def emitFold {α : Type} (f : ColorState → α → ColorState × List Instr) :
    ColorState → List α → ColorState × List Instr
  | st, [] => (st, [])
  | st, a :: as =>
      let p := f st a
      let q := emitFold f p.1 as
      (q.1, p.2 ++ q.2)

/-- One cell of the content loop (render, lines 202-227): emit a
foreground or background change only when the mapped color differs from
the tracker, then print the cell text (a space when absent or empty). -/
def render_cell (st : ColorState) (oc : Option ScreenCell) :
    ColorState × List Instr :=
  match oc with
  | some cell =>
      let cfg := map_vt100_color cell.fg
      let p1 : Option CtColor × List Instr :=
        if st.1 ≠ some cfg then (some cfg, [Instr.setFg cfg]) else (st.1, [])
      let cbg := map_vt100_color cell.bg
      let p2 : Option CtColor × List Instr :=
        if st.2 ≠ some cbg then (some cbg, [Instr.setBg cbg]) else (st.2, [])
      let text := if cell.contents = "" then " " else cell.contents
      ((p1.1, p2.1), p1.2 ++ p2.2 ++ [Instr.printStr text])
  | none => (st, [Instr.printStr " "])

/-- One content row (render, lines 188-228): MoveTo(0, y+1), then the
cells x in 0..width, stopping at the screen width. -/
def render_row (screen : VtScreen) (width y : Nat) (st : ColorState) :
    ColorState × List Instr :=
  let p := emitFold (fun st x => render_cell st (screen.cell y x)) st
    (List.range (min width screen.cols))
  (p.1, Instr.moveTo 0 (y + 1) :: p.2)

/-- The full content-row pass of render: rows y in 0..content_height,
stopping at the screen height, starting with both color trackers unset. -/
def render_content (screen : VtScreen) (width content_height : Nat) :
    List Instr :=
  (emitFold (fun st y => render_row screen width y st) (none, none)
    (List.range (min content_height screen.rows))).2

/-- The content instructions render would execute for a renderer r given
the screen read from its vt100 state (content height as computed at
render lines 182-186). -/
def TerminalRenderer.render_content_instrs (r : TerminalRenderer)
    (screen : VtScreen) : List Instr :=
  render_content screen r.width (r.height - r.chrome_rows)

/-- The colors last emitted by an instruction list, starting from a given
tracker state. -/
def track_colors : ColorState → List Instr → ColorState
  | st, [] => st
  | st, Instr.setFg c :: rest => track_colors (some c, st.2) rest
  | st, Instr.setBg c :: rest => track_colors (st.1, some c) rest
  | st, Instr.moveTo _ _ :: rest => track_colors st rest
  | st, Instr.printStr _ :: rest => track_colors st rest

/-- No color-change instruction in the list repeats the color last
emitted (or assumed) for its ground: every setFg differs from the
foreground in force at its position, every setBg from the background. -/
def no_redundant_colors : ColorState → List Instr → Prop
  | _, [] => True
  | st, Instr.setFg c :: rest => st.1 ≠ some c ∧ no_redundant_colors (some c, st.2) rest
  | st, Instr.setBg c :: rest => st.2 ≠ some c ∧ no_redundant_colors (st.1, some c) rest
  | st, Instr.moveTo _ _ :: rest => no_redundant_colors st rest
  | st, Instr.printStr _ :: rest => no_redundant_colors st rest

/-! ## Event loop (src/terminal/mod.rs, Terminal::run)

One iteration of the Running loop becomes a step function from loop
state and polled event to the next state plus the trace of effects the
iteration performs on the outside world (PTY writes and resizes, render
calls, sleeps, the periodic directory check).  The background reader
thread's callback and its termination on EOF become further events of a
combined system step. -/

inductive LoopEffect where
  | ptyWrite (bytes : List Nat)
  | ptyResize (rows cols : Nat)
  | render
  | sleep
  | checkDir
  | disableRawMode
  | leaveAltScreen
  deriving DecidableEq, Repr

/-- The mutable state of Terminal::run visible to the loop body: the
renderer (shared with the reader thread), the stored dimensions, the
running flag, and the periodic title-refresh counter (the static COUNTER
at mod.rs line 144, incremented once per timeout iteration). -/
structure LoopState where
  renderer : TerminalRenderer
  width : Nat
  height : Nat
  running : Bool
  counter : Nat
  deriving DecidableEq, Repr

/-- KeyModifiers::CONTROL exactly (the equality tests at mod.rs lines
108, 113, 118 compare the whole modifier set). -/
def ctrl_only : KeyModifiers := ⟨true, false, false⟩

/-- The body of the Running loop (mod.rs lines 102-163) for one polled
event.  The reserved-shortcut branches end in a Rust continue, so they
emit no render; all other branches fall through to the render call at
line 162.  The local input_bytes binding is inlined.  The directory
check on the one-second cadence is abstracted as a checkDir effect; a
title change only rewrites the renderer title and is irrelevant to the
claims below. -/
def run_step (s : LoopState) (ev : InputEvent) : LoopState × List LoopEffect :=
  match ev with
  | InputEvent.Key key =>
      if key.code = KeyCode.Char 'q' ∧ key.modifiers = ctrl_only then
        ({ s with running := false }, [])
      else if key.code = KeyCode.Char 'b' ∧ key.modifiers = ctrl_only then
        ({ s with renderer := s.renderer.toggle_status_bar }, [])
      else if key.code = KeyCode.Char 'r' ∧ key.modifiers = ctrl_only then
        ({ s with renderer := s.renderer.toggle_raw_mode }, [])
      else if process_key_input key ≠ [] then
        (s, [LoopEffect.ptyWrite (process_key_input key), LoopEffect.render])
      else
        (s, [LoopEffect.render])
  | InputEvent.Resize w h =>
      ({ s with width := w, height := h, renderer := s.renderer.resize w h },
       [LoopEffect.ptyResize h w, LoopEffect.render])
  | InputEvent.None =>
      ({ s with counter := s.counter + 1 },
       if (s.counter + 1) % 100 = 0 then
         [LoopEffect.sleep, LoopEffect.checkDir, LoopEffect.render]
       else
         [LoopEffect.sleep, LoopEffect.render])

/-- Events of the combined system: a polled input event on the main
thread, or an action of the background reader thread (a chunk of child
output fed to the renderer under the lock, or the read returning 0
bytes). -/
inductive SysEvent where
  | input (ev : InputEvent)
  | ptyData (data : List Nat)
  | ptyEof
  deriving DecidableEq, Repr

/-- One interleaved system step.  A data chunk runs the reader callback
(renderer.process_output, mod.rs lines 176-180).  EOF makes the reader
thread break out of its loop (pty.rs line 94) and nothing else: no
shared state changes and no effect reaches the main loop. -/
def sys_step (s : LoopState) : SysEvent → LoopState × List LoopEffect
  | SysEvent.input ev => run_step s ev
  | SysEvent.ptyData d =>
      ({ s with renderer := s.renderer.process_output d }, [])
  | SysEvent.ptyEof => (s, [])

/-- The while-running loop followed by the cleanup at mod.rs lines
165-167, over a finite schedule of system events.  When the schedule is
exhausted while still running, the trace so far is returned (the real
loop would keep polling). -/
def sys_run (s : LoopState) : List SysEvent → LoopState × List LoopEffect
  | [] =>
      if s.running = true then (s, [])
      else (s, [LoopEffect.disableRawMode, LoopEffect.leaveAltScreen])
  | e :: rest =>
      if s.running = true then
        let p := sys_step s e
        let q := sys_run p.1 rest
        (q.1, p.2 ++ q.2)
      else (s, [LoopEffect.disableRawMode, LoopEffect.leaveAltScreen])

/-- The loop state right after Terminal::new(width, height) and the
setup phase of Terminal::run (running is set to true at line 99, the
counter starts at 0). -/
def init_loop_state (width height : Nat) : LoopState :=
  ⟨TerminalRenderer.new width height, width, height, true, 0⟩

/-- The closed set of reserved shortcuts the orchestrator intercepts:
Ctrl+Q, Ctrl+B, Ctrl+R with exactly the control modifier. -/
def reserved_shortcut (k : KeyEvent) : Prop :=
  (k.code = KeyCode.Char 'q' ∨ k.code = KeyCode.Char 'b' ∨
   k.code = KeyCode.Char 'r') ∧ k.modifiers = ctrl_only

def is_pty_write : LoopEffect → Bool
  | LoopEffect.ptyWrite _ => true
  | _ => false

/-- One blocking read of the reader thread (pty.rs lines 91-98): Ok with
bytes, where Ok with no bytes is EOF, or an I/O error. -/
inductive ReadResult where
  | ok (data : List Nat)
  | err
  deriving DecidableEq, Repr

/-- The callback invocations the spawned reader performs over a schedule
of read results (pty.rs lines 88-102): it loops until a read returns 0
bytes or fails, then terminates. -/
def reader_callbacks : List ReadResult → List (List Nat)
  | [] => []
  | ReadResult.ok [] :: _ => []
  | ReadResult.ok d :: rest => d :: reader_callbacks rest
  | ReadResult.err :: _ => []

/-! ## Startup and process exit (src/main.rs, src/terminal/pty.rs)

The fallible startup steps depend on the operating system; they are
modelled by an environment record saying which steps succeed, threaded
through the same Except-based control flow as the source code. -/

structure StartupEnv where
  termSizeOk : Bool
  ptyAllocOk : Bool
  spawnOk : Bool
  rawModeOk : Bool
  deriving DecidableEq, Repr

/-- The PTY as configured by TerminalPty::new (pty.rs lines 16-50): a
fixed initial size of 24 rows by 80 columns, TERM set to
xterm-256color, and the command plus arguments. -/
structure TerminalPty where
  rows : Nat
  cols : Nat
  term_env : String
  argv : List String
  deriving DecidableEq, Repr

/-- TerminalPty::new: openpty can fail (PTY allocation), then
spawn_command can fail; on success the PTY holds the fixed initial
size. -/
def TerminalPty.try_new (env : StartupEnv) (shell_command : String)
    (args : List String) : Except String TerminalPty :=
  if !env.ptyAllocOk then Except.error "failed to allocate pty"
  else if !env.spawnOk then Except.error "failed to spawn child"
  else Except.ok ⟨24, 80, "xterm-256color", shell_command :: args⟩

/-- Terminal as built by Terminal::new (mod.rs lines 32-62): the PTY runs
the current executable with the re-entry flag, the renderer takes the
real terminal dimensions, and running starts false. -/
structure Terminal where
  pty : TerminalPty
  renderer : TerminalRenderer
  width : Nat
  height : Nat
  running : Bool
  deriving DecidableEq, Repr

def Terminal.try_new (env : StartupEnv) (width height : Nat) :
    Except String Terminal := do
  let pty ← TerminalPty.try_new env "current-exe" ["--shell-mode"]
  Except.ok ⟨pty, TerminalRenderer.new width height, width, height, false⟩

/-- The setup phase of Terminal::run (mod.rs line 90): enable_raw_mode
can fail.  The Running phase itself is modelled by sys_run; a session
that reaches the loop and quits cleanly returns ok. -/
def Terminal.run_startup (env : StartupEnv) : Except String Unit :=
  if !env.rawModeOk then Except.error "failed to enable raw mode"
  else Except.ok ()

/-- run_terminal_emulator (main.rs lines 325-334): query the terminal
size, build the Terminal, run it, propagating errors with the question
mark operator. -/
def run_terminal_emulator (env : StartupEnv) (width height : Nat) :
    Except String Unit :=
  if !env.termSizeOk then Except.error "failed to query terminal size"
  else
    match Terminal.try_new env width height with
    | Except.error e => Except.error e
    | Except.ok _t => Terminal.run_startup env

/-- The emulator branch of main (main.rs lines 315-321): the error is
only printed with eprintln and main returns unit, so the process status
is 0 in both arms; the produced diagnostic, when any, is returned
alongside. -/
def main_exit (env : StartupEnv) (width height : Nat) : Nat × Option String :=
  match run_terminal_emulator env width height with
  | Except.ok _ => (0, none)
  | Except.error e => (0, some ("Terminal Error: " ++ e))

/-! ## Theorems -/

/-- C3: every key listed in the translation table produces exactly the
bytes the table specifies: Ctrl plus a lowercase or uppercase letter gives
the single byte lowercase-minus-97-plus-1, a printable ASCII character
without Ctrl gives its single byte, and the named keys give the listed
escape sequences (F5 through F12 use codes 15,17,18,19,20,21,23,24,
skipping 16 and 22). -/
theorem process_key_input_matches_table :
    (∀ (c : Char) (m : KeyModifiers), m.ctrl = true →
      97 ≤ c.toNat → c.toNat ≤ 122 →
      process_key_input ⟨KeyCode.Char c, m⟩ = [c.toNat - 97 + 1]) ∧
    (∀ (c : Char) (m : KeyModifiers), m.ctrl = true →
      65 ≤ c.toNat → c.toNat ≤ 90 →
      process_key_input ⟨KeyCode.Char c, m⟩ = [(c.toNat + 32) - 97 + 1]) ∧
    (∀ (c : Char) (m : KeyModifiers), m.ctrl = false →
      32 ≤ c.toNat → c.toNat ≤ 126 →
      process_key_input ⟨KeyCode.Char c, m⟩ = [c.toNat]) ∧
    (∀ m, process_key_input ⟨KeyCode.Enter, m⟩ = [0x0D]) ∧
    (∀ m, process_key_input ⟨KeyCode.Tab, m⟩ = [0x09]) ∧
    (∀ m, process_key_input ⟨KeyCode.Backspace, m⟩ = [0x7F]) ∧
    (∀ m, process_key_input ⟨KeyCode.Esc, m⟩ = [0x1B]) ∧
    (∀ m, process_key_input ⟨KeyCode.Up, m⟩ = [0x1B, 0x5B, 0x41]) ∧
    (∀ m, process_key_input ⟨KeyCode.Down, m⟩ = [0x1B, 0x5B, 0x42]) ∧
    (∀ m, process_key_input ⟨KeyCode.Right, m⟩ = [0x1B, 0x5B, 0x43]) ∧
    (∀ m, process_key_input ⟨KeyCode.Left, m⟩ = [0x1B, 0x5B, 0x44]) ∧
    (∀ m, process_key_input ⟨KeyCode.Home, m⟩ = [0x1B, 0x5B, 0x48]) ∧
    (∀ m, process_key_input ⟨KeyCode.End, m⟩ = [0x1B, 0x5B, 0x46]) ∧
    (∀ m, process_key_input ⟨KeyCode.PageUp, m⟩ = [0x1B, 0x5B, 0x35, 0x7E]) ∧
    (∀ m, process_key_input ⟨KeyCode.PageDown, m⟩ = [0x1B, 0x5B, 0x36, 0x7E]) ∧
    (∀ m, process_key_input ⟨KeyCode.Delete, m⟩ = [0x1B, 0x5B, 0x33, 0x7E]) ∧
    (∀ m, process_key_input ⟨KeyCode.Insert, m⟩ = [0x1B, 0x5B, 0x32, 0x7E]) ∧
    (∀ m, process_key_input ⟨KeyCode.F 1, m⟩ = [0x1B, 0x4F, 0x50]) ∧
    (∀ m, process_key_input ⟨KeyCode.F 2, m⟩ = [0x1B, 0x4F, 0x51]) ∧
    (∀ m, process_key_input ⟨KeyCode.F 3, m⟩ = [0x1B, 0x4F, 0x52]) ∧
    (∀ m, process_key_input ⟨KeyCode.F 4, m⟩ = [0x1B, 0x4F, 0x53]) ∧
    (∀ m, process_key_input ⟨KeyCode.F 5, m⟩ = [0x1B, 0x5B, 0x31, 0x35, 0x7E]) ∧
    (∀ m, process_key_input ⟨KeyCode.F 6, m⟩ = [0x1B, 0x5B, 0x31, 0x37, 0x7E]) ∧
    (∀ m, process_key_input ⟨KeyCode.F 7, m⟩ = [0x1B, 0x5B, 0x31, 0x38, 0x7E]) ∧
    (∀ m, process_key_input ⟨KeyCode.F 8, m⟩ = [0x1B, 0x5B, 0x31, 0x39, 0x7E]) ∧
    (∀ m, process_key_input ⟨KeyCode.F 9, m⟩ = [0x1B, 0x5B, 0x32, 0x30, 0x7E]) ∧
    (∀ m, process_key_input ⟨KeyCode.F 10, m⟩ = [0x1B, 0x5B, 0x32, 0x31, 0x7E]) ∧
    (∀ m, process_key_input ⟨KeyCode.F 11, m⟩ = [0x1B, 0x5B, 0x32, 0x33, 0x7E]) ∧
    (∀ m, process_key_input ⟨KeyCode.F 12, m⟩ = [0x1B, 0x5B, 0x32, 0x34, 0x7E]) := by
  refine ⟨?_, ?_, ?_, ?_, ?_, ?_, ?_, ?_, ?_, ?_, ?_, ?_, ?_, ?_, ?_, ?_,
    ?_, ?_, ?_, ?_, ?_, ?_, ?_, ?_, ?_, ?_, ?_, ?_, ?_⟩ <;>
    try (intro m; rfl)
  · intro c m hctrl h1 h2
    have hmod : c.toNat % 256 = c.toNat := Nat.mod_eq_of_lt (by omega)
    simp only [process_key_input, hctrl, if_true]
    rw [if_pos ⟨h1, h2⟩, hmod]
  · intro c m hctrl h1 h2
    have hmod : c.toNat % 256 = c.toNat := Nat.mod_eq_of_lt (by omega)
    have hnot : ¬ (97 ≤ c.toNat ∧ c.toNat ≤ 122) := by omega
    have heq : c.toNat - 65 + 1 = (c.toNat + 32) - 97 + 1 := by omega
    simp only [process_key_input, hctrl, if_true]
    rw [if_neg hnot, if_pos ⟨h1, h2⟩, hmod, heq]
  · intro c m hctrl h1 h2
    have hmod : c.toNat % 256 = c.toNat := Nat.mod_eq_of_lt (by omega)
    simp only [process_key_input, hctrl, if_false, Bool.false_eq_true, hmod]

/-- Witness for C3: concrete instances discharging the hypotheses of the
Ctrl-letter and printable-character clauses. -/
theorem process_key_input_matches_table_witness :
    process_key_input ⟨KeyCode.Char 'c', ⟨true, false, false⟩⟩ = [3] ∧
    process_key_input ⟨KeyCode.Char 'C', ⟨true, false, false⟩⟩ = [3] ∧
    process_key_input ⟨KeyCode.Char 'x', ⟨false, false, false⟩⟩ = [120] := by
  refine ⟨?_, ?_, ?_⟩
  · exact process_key_input_matches_table.1 'c' ⟨true, false, false⟩ rfl
      (by decide) (by decide)
  · exact process_key_input_matches_table.2.1 'C' ⟨true, false, false⟩ rfl
      (by decide) (by decide)
  · exact process_key_input_matches_table.2.2.1 'x' ⟨false, false, false⟩ rfl
      (by decide) (by decide)

/-- C8: every key event outside the translation table, namely the key
codes hit by the catch-all arm and function keys other than F1 through
F12, translates to the empty byte sequence, so nothing is forwarded to
the child. -/
theorem process_key_input_unlisted_empty :
    (∀ (k : KeyCode) (m : KeyModifiers),
      k ∈ [KeyCode.BackTab, KeyCode.Null, KeyCode.CapsLock,
           KeyCode.ScrollLock, KeyCode.NumLock, KeyCode.PrintScreen,
           KeyCode.Pause, KeyCode.Menu, KeyCode.KeypadBegin] →
      process_key_input ⟨k, m⟩ = []) ∧
    (∀ (n : Nat) (m : KeyModifiers), n = 0 ∨ 13 ≤ n →
      process_key_input ⟨KeyCode.F n, m⟩ = []) := by
  constructor
  · intro k m hk
    fin_cases hk <;> rfl
  · intro n m hn
    rcases hn with h | h
    · subst h; rfl
    · obtain ⟨k, rfl⟩ : ∃ k, n = k + 13 := ⟨n - 13, by omega⟩
      rfl

/-- Witness for C8: concrete unlisted keys translate to the empty
sequence. -/
theorem process_key_input_unlisted_empty_witness :
    process_key_input ⟨KeyCode.BackTab, ⟨false, false, false⟩⟩ = [] ∧
    process_key_input ⟨KeyCode.F 13, ⟨false, false, false⟩⟩ = [] := by
  constructor
  · exact process_key_input_unlisted_empty.1 KeyCode.BackTab _ (by simp)
  · exact process_key_input_unlisted_empty.2 13 _ (Or.inr (by omega))

/-- C6 (counterexample): toggle_raw_mode does not reinitialize the vt100
state.  After processing one byte and toggling raw mode, the parser still
holds the processed byte, whereas a reinitialized parser would be blank. -/
theorem toggle_raw_mode_no_reinit_cex :
    (((TerminalRenderer.new 80 24).process_output [0x41]).toggle_raw_mode).vt.processed ≠ [] := by
  decide

/-- C6 (amended): toggle_status_bar flips its flag and reinitializes the
vt100 grid at the content height implied by the new flag state;
toggle_raw_mode only flips the raw-debug flag and leaves the vt100 state
untouched (raw mode does not affect the content height). -/
theorem toggle_flags_effect (r : TerminalRenderer) :
    (r.toggle_status_bar.show_status_bar = !r.show_status_bar ∧
     r.toggle_status_bar.vt =
       Vt100Parser.mk_new (r.height - (if !r.show_status_bar then 2 else 1)) r.width) ∧
    (r.toggle_raw_mode.raw_mode = !r.raw_mode ∧
     r.toggle_raw_mode.vt = r.vt) :=
  ⟨⟨rfl, rfl⟩, rfl, rfl⟩

lemma grid_inv_new (w h : Nat) : (TerminalRenderer.new w h).grid_inv :=
  ⟨rfl, rfl⟩

lemma grid_inv_apply_op (r : TerminalRenderer) (op : ROp)
    (h : r.grid_inv) : (r.apply_op op).grid_inv := by
  cases op with
  | resize w h' =>
      exact ⟨rfl, rfl⟩
  | toggleStatusBar =>
      exact ⟨rfl, rfl⟩
  | toggleRawMode =>
      exact h
  | processOutput d =>
      exact h
  | setTitle t =>
      exact h

lemma grid_inv_apply_ops (ops : List ROp) :
    ∀ r : TerminalRenderer, r.grid_inv → (r.apply_ops ops).grid_inv := by
  induction ops with
  | nil => intro r h; exact h
  | cons op rest ih =>
      intro r h
      exact ih (r.apply_op op) (grid_inv_apply_op r op h)

/-- C7: over every sequence of renderer operations starting from
construction, the vt100 grid dimensions equal the terminal size minus the
reserved chrome rows (height minus 2 with the status bar shown, height
minus 1 with it hidden, width columns); in particular after
Resize(100,40) from an 80x24 renderer the grid is 38 rows by 100
columns. -/
theorem grid_dims_invariant :
    (∀ (w h : Nat) (ops : List ROp),
      ((TerminalRenderer.new w h).apply_ops ops).grid_inv) ∧
    ((TerminalRenderer.new 80 24).resize 100 40).vt.rows = 38 ∧
    ((TerminalRenderer.new 80 24).resize 100 40).vt.cols = 100 :=
  ⟨fun w h ops => grid_inv_apply_ops ops _ (grid_inv_new w h), rfl, rfl⟩

lemma track_colors_append (l1 l2 : List Instr) :
    ∀ st, track_colors st (l1 ++ l2) = track_colors (track_colors st l1) l2 := by
  induction l1 with
  | nil => intro st; rfl
  | cons i rest ih =>
      intro st
      cases i <;> simpa only [List.cons_append, track_colors] using ih _

lemma no_redundant_append (l1 l2 : List Instr) :
    ∀ st, no_redundant_colors st l1 →
      no_redundant_colors (track_colors st l1) l2 →
      no_redundant_colors st (l1 ++ l2) := by
  induction l1 with
  | nil => intro st _ h2; exact h2
  | cons i rest ih =>
      intro st h1 h2
      cases i with
      | setFg c => exact ⟨h1.1, ih _ h1.2 h2⟩
      | setBg c => exact ⟨h1.1, ih _ h1.2 h2⟩
      | moveTo x y => exact ih _ h1 h2
      | printStr s => exact ih _ h1 h2

/-- An emission step is good when it never re-emits a tracked color and
its returned state is exactly the colors last emitted. -/
def good_emit {α : Type} (f : ColorState → α → ColorState × List Instr) : Prop :=
  ∀ st a, no_redundant_colors st (f st a).2 ∧
    track_colors st (f st a).2 = (f st a).1

lemma emitFold_good {α : Type} (f : ColorState → α → ColorState × List Instr)
    (hf : good_emit f) :
    ∀ (l : List α) (st : ColorState),
      no_redundant_colors st (emitFold f st l).2 ∧
      track_colors st (emitFold f st l).2 = (emitFold f st l).1 := by
  intro l
  induction l with
  | nil => intro st; exact ⟨trivial, rfl⟩
  | cons a as ih =>
      intro st
      have hp := hf st a
      have hq := ih (f st a).1
      constructor
      · show no_redundant_colors st ((f st a).2 ++ (emitFold f (f st a).1 as).2)
        exact no_redundant_append _ _ _ hp.1 (by rw [hp.2]; exact hq.1)
      · show track_colors st ((f st a).2 ++ (emitFold f (f st a).1 as).2) =
          (emitFold f (f st a).1 as).1
        rw [track_colors_append, hp.2, hq.2]

lemma render_cell_good (st : ColorState) (oc : Option ScreenCell) :
    no_redundant_colors st (render_cell st oc).2 ∧
    track_colors st (render_cell st oc).2 = (render_cell st oc).1 := by
  obtain ⟨f0, b0⟩ := st
  cases oc with
  | none => exact ⟨trivial, rfl⟩
  | some cell =>
      by_cases h1 : f0 = some (map_vt100_color cell.fg) <;>
      by_cases h2 : b0 = some (map_vt100_color cell.bg) <;>
        simp [render_cell, h1, h2, no_redundant_colors, track_colors]

lemma render_row_good (screen : VtScreen) (width : Nat) (st : ColorState)
    (y : Nat) :
    no_redundant_colors st (render_row screen width y st).2 ∧
    track_colors st (render_row screen width y st).2 =
      (render_row screen width y st).1 := by
  have h := emitFold_good (fun st x => render_cell st (screen.cell y x))
    (fun st a => render_cell_good st (screen.cell y a))
    (List.range (min width screen.cols)) st
  exact ⟨h.1, h.2⟩

/-- C9: during the content-row pass of render, a foreground or background
color-change instruction is emitted only when the cell's mapped color
differs from the color last emitted in that frame; a cell whose color
equals the previous one never triggers a re-emission. -/
theorem render_no_redundant_color_changes (r : TerminalRenderer)
    (screen : VtScreen) :
    no_redundant_colors (none, none) (r.render_content_instrs screen) :=
  (emitFold_good (fun st y => render_row screen r.width y st)
    (fun st a => render_row_good screen r.width st a)
    (List.range (min (r.height - r.chrome_rows) screen.rows))
    (none, none)).1

/-- C4: a reserved shortcut (Ctrl plus q, b or r with exactly the
control modifier) handled while Running causes no PTY write even though
the translator would produce bytes for it, and for Ctrl+Q the loop
leaves Running with no bytes forwarded and raw mode is disabled exactly
once during the subsequent shutdown, whatever events follow. -/
theorem reserved_shortcuts_intercepted (s : LoopState) (c : Char)
    (rest : List SysEvent) (hrun : s.running = true)
    (hc : c = 'q' ∨ c = 'b' ∨ c = 'r') :
    (run_step s (InputEvent.Key ⟨KeyCode.Char c, ctrl_only⟩)).2.countP is_pty_write = 0 ∧
    process_key_input ⟨KeyCode.Char c, ctrl_only⟩ ≠ [] ∧
    (c = 'q' →
      (run_step s (InputEvent.Key ⟨KeyCode.Char c, ctrl_only⟩)).1.running = false ∧
      (sys_run s (SysEvent.input (InputEvent.Key ⟨KeyCode.Char c, ctrl_only⟩) :: rest)).2.count
        LoopEffect.disableRawMode = 1) := by
  rcases hc with rfl | rfl | rfl
  · refine ⟨rfl, by decide, fun _ => ⟨rfl, ?_⟩⟩
    have h1 : sys_run s (SysEvent.input (InputEvent.Key ⟨KeyCode.Char 'q', ctrl_only⟩) :: rest) =
        ({ s with running := false },
         (sys_run { s with running := false } rest).2) := by
      simp only [sys_run, hrun, if_true]
      have hstep : sys_step s (SysEvent.input (InputEvent.Key ⟨KeyCode.Char 'q', ctrl_only⟩)) =
          ({ s with running := false }, []) := rfl
      rw [hstep]
      have hdone : (sys_run { s with running := false } rest).1 =
          { s with running := false } := by
        cases rest <;> rfl
      rw [List.nil_append, hdone]
    rw [h1]
    have h2 : (sys_run { s with running := false } rest).2 =
        [LoopEffect.disableRawMode, LoopEffect.leaveAltScreen] := by
      cases rest <;> rfl
    rw [h2]
    rfl
  · exact ⟨rfl, by decide, fun h => by cases h⟩
  · exact ⟨rfl, by decide, fun h => by cases h⟩

/-- Witness for C4: Ctrl+Q from the initial loop state stops the loop
and the shutdown trace disables raw mode exactly once. -/
theorem reserved_shortcuts_intercepted_witness :
    (run_step (init_loop_state 80 24)
      (InputEvent.Key ⟨KeyCode.Char 'q', ctrl_only⟩)).1.running = false ∧
    (sys_run (init_loop_state 80 24)
      [SysEvent.input (InputEvent.Key ⟨KeyCode.Char 'q', ctrl_only⟩)]).2.count
      LoopEffect.disableRawMode = 1 :=
  ⟨((reserved_shortcuts_intercepted (init_loop_state 80 24) 'q' [] rfl
      (Or.inl rfl)).2.2 rfl).1,
   ((reserved_shortcuts_intercepted (init_loop_state 80 24) 'q' [] rfl
      (Or.inl rfl)).2.2 rfl).2⟩

/-- C5 (counterexample): a reserved shortcut handled in the Running
state is not followed by a render before the next poll: the Ctrl+B
branch ends in a continue and its iteration performs no render call at
all. -/
theorem reserved_shortcut_skips_render_cex :
    (init_loop_state 80 24).running = true ∧
    LoopEffect.render ∉
      (run_step (init_loop_state 80 24)
        (InputEvent.Key ⟨KeyCode.Char 'b', ctrl_only⟩)).2 :=
  ⟨rfl, fun h => List.not_mem_nil LoopEffect.render h⟩

/-- C5 (amended): every handled input event other than the three
reserved shortcuts, namely any non-reserved Key, every Resize and every
timeout, is followed by a render call before the next event is polled;
the reserved shortcuts skip the render via continue. -/
theorem render_follows_nonreserved_events (s : LoopState) (ev : InputEvent)
    (_hrun : s.running = true)
    (hres : ∀ k, ev = InputEvent.Key k → ¬ reserved_shortcut k) :
    (run_step s ev).2.getLast? = some LoopEffect.render := by
  cases ev with
  | Key k =>
      have hk := hres k rfl
      have h1 : ¬ (k.code = KeyCode.Char 'q' ∧ k.modifiers = ctrl_only) :=
        fun h => hk ⟨Or.inl h.1, h.2⟩
      have h2 : ¬ (k.code = KeyCode.Char 'b' ∧ k.modifiers = ctrl_only) :=
        fun h => hk ⟨Or.inr (Or.inl h.1), h.2⟩
      have h3 : ¬ (k.code = KeyCode.Char 'r' ∧ k.modifiers = ctrl_only) :=
        fun h => hk ⟨Or.inr (Or.inr h.1), h.2⟩
      simp only [run_step]
      rw [if_neg h1, if_neg h2, if_neg h3]
      by_cases hb : process_key_input k ≠ []
      · rw [if_pos hb]; rfl
      · rw [if_neg hb]; rfl
  | Resize w h => rfl
  | None =>
      simp only [run_step]
      by_cases hcnt : (s.counter + 1) % 100 = 0
      · rw [if_pos hcnt]; rfl
      · rw [if_neg hcnt]; rfl

/-- Witness for C5 (amended): a Resize event from the initial state is
followed by a render. -/
theorem render_follows_nonreserved_events_witness :
    (run_step (init_loop_state 80 24) (InputEvent.Resize 100 40)).2.getLast? =
      some LoopEffect.render :=
  render_follows_nonreserved_events (init_loop_state 80 24)
    (InputEvent.Resize 100 40) rfl (fun _ h => nomatch h)

/-- C1: the code does not propagate PTY EOF to the event loop.  The
reader thread terminates as soon as a read returns 0 bytes (so it does
not spin), but the main loop's running flag stays true through the
following polling intervals, and neither raw mode is disabled nor the
alternate screen left: the loop keeps polling after the child closed
its output. -/
theorem eof_does_not_stop_loop :
    reader_callbacks [ReadResult.ok []] = [] ∧
    (sys_run (init_loop_state 80 24)
      [SysEvent.ptyEof, SysEvent.input InputEvent.None,
       SysEvent.input InputEvent.None]).1.running = true ∧
    (sys_run (init_loop_state 80 24)
      [SysEvent.ptyEof, SysEvent.input InputEvent.None,
       SysEvent.input InputEvent.None]).2.count LoopEffect.disableRawMode = 0 ∧
    (sys_run (init_loop_state 80 24)
      [SysEvent.ptyEof, SysEvent.input InputEvent.None,
       SysEvent.input InputEvent.None]).2.count LoopEffect.leaveAltScreen = 0 :=
  ⟨rfl, rfl, rfl, rfl⟩

/-- C2 (counterexample): when PTY allocation fails at startup, the
process prints a diagnostic but exits with status 0, not a non-zero
status. -/
theorem startup_failure_exit_status_cex :
    (main_exit ⟨true, false, true, true⟩ 80 24).1 = 0 ∧
    (main_exit ⟨true, false, true, true⟩ 80 24).2 =
      some "Terminal Error: failed to allocate pty" :=
  ⟨rfl, rfl⟩

/-- C2 (amended): the process always exits with status zero; on a fully
successful startup and clean quit no diagnostic is printed, and on a
PTY-allocation, spawn or raw-mode failure a diagnostic message is
printed while the status is still zero. -/
theorem exit_status_always_zero (env : StartupEnv) (w h : Nat) :
    (main_exit env w h).1 = 0 ∧
    ((env.termSizeOk = true ∧ env.ptyAllocOk = true ∧ env.spawnOk = true ∧
      env.rawModeOk = true) → (main_exit env w h).2 = none) ∧
    ((env.ptyAllocOk = false ∨ env.spawnOk = false ∨ env.rawModeOk = false) →
      (main_exit env w h).2.isSome = true) := by
  obtain ⟨a, b, c, d⟩ := env
  refine ⟨?_, ?_, ?_⟩
  · cases a <;> cases b <;> cases c <;> cases d <;> rfl
  · rintro ⟨h1, h2, h3, h4⟩
    simp only at h1 h2 h3 h4
    subst h1; subst h2; subst h3; subst h4
    rfl
  · intro hfail
    simp only at hfail
    cases a <;> cases b <;> cases c <;> cases d <;>
      first
        | rfl
        | (rcases hfail with h | h | h <;> cases h)

/-- Witness for C2 (amended): with every startup step succeeding the
exit status is zero and no diagnostic is printed. -/
theorem exit_status_always_zero_witness :
    (main_exit ⟨true, true, true, true⟩ 80 24).1 = 0 ∧
    (main_exit ⟨true, true, true, true⟩ 80 24).2 = none :=
  ⟨(exit_status_always_zero ⟨true, true, true, true⟩ 80 24).1,
   (exit_status_always_zero ⟨true, true, true, true⟩ 80 24).2.1
     ⟨rfl, rfl, rfl, rfl⟩⟩

/-- C10: whatever dimensions Terminal::new receives, when PTY allocation
and spawn succeed the PTY is opened at the fixed initial size of 24 rows
by 80 columns with TERM set to xterm-256color, while the renderer grid
is height minus 2 rows by width columns. -/
theorem pty_fixed_initial_size (env : StartupEnv) (w h : Nat)
    (h1 : env.ptyAllocOk = true) (h2 : env.spawnOk = true) :
    (Terminal.try_new env w h).toOption.map
      (fun t => (t.pty.rows, t.pty.cols, t.pty.term_env,
                 t.renderer.vt.rows, t.renderer.vt.cols)) =
      some (24, 80, "xterm-256color", h - 2, w) := by
  obtain ⟨a, b, c, d⟩ := env
  simp only at h1 h2
  subst h1; subst h2
  rfl

/-- Witness for C10: a 120 by 40 terminal still opens its PTY at 24 rows
by 80 columns, with a 38 by 120 renderer grid. -/
theorem pty_fixed_initial_size_witness :
    (Terminal.try_new ⟨true, true, true, true⟩ 120 40).toOption.map
      (fun t => (t.pty.rows, t.pty.cols, t.pty.term_env,
                 t.renderer.vt.rows, t.renderer.vt.cols)) =
      some (24, 80, "xterm-256color", 38, 120) :=
  pty_fixed_initial_size ⟨true, true, true, true⟩ 120 40 rfl rfl

end ShellDesign
